import Mathlib

/-!
Verification development for the `ttk::ContinuousScatterPlot` core
(`core/base/continuousScatterPlot/ContinuousScatterPlot.h`).

The per-cell computation of `ContinuousScatterPlot::execute` is embedded
shallowly below.  Scalar values and 3D coordinates are modelled by exact
rationals (`ℚ`); the C++ code performs the same arithmetic on IEEE doubles,
and every property considered here is a property of the exact arithmetic
the source expresses.  The square roots taken by `Geometry::magnitude` and
`Geometry::distance` are modelled with `Real.sqrt` on the (rational) squared
norms.  The helper routines of `Geometry.h` (`crossProduct`, `dotProduct`,
`isPointInTriangle`, `computeTriangleArea`, `computeSegmentIntersection`,
`distance`, `magnitude`) are not part of the excerpt, so they are modelled
from the spec where noted.
-/

namespace CSP

/-- A 3D vector of exact rationals (models a `double[3]`). -/
abbrev Vec3 : Type := ℚ × ℚ × ℚ

/-- Modelled from the spec: `Geometry::crossProduct` (absent from the
excerpt), the standard 3D cross product used by the Gradient Solver. -/
def crossProduct (u v : Vec3) : Vec3 :=
  (u.2.1 * v.2.2 - u.2.2 * v.2.1,
   u.2.2 * v.1 - u.1 * v.2.2,
   u.1 * v.2.1 - u.2.1 * v.1)

/-- Modelled from the spec: `Geometry::dotProduct` (absent from the
excerpt), the standard 3D dot product. -/
def dotProduct (u v : Vec3) : ℚ :=
  u.1 * v.1 + u.2.1 * v.2.1 + u.2.2 * v.2.2

/-- Componentwise difference of 3D vectors. -/
def vsub (u v : Vec3) : Vec3 :=
  (u.1 - v.1, u.2.1 - v.2.1, u.2.2 - v.2.2)

/-- Squared Euclidean norm of a 3D vector; `Geometry::magnitude` is
`Real.sqrt` of this quantity. -/
def normSq (u : Vec3) : ℚ := dotProduct u u

/-- Squared Euclidean distance between two 3D points; `Geometry::distance`
is `Real.sqrt` of this quantity. -/
def distanceSq (u v : Vec3) : ℚ := normSq (vsub u v)

/-- Scalar times vector, componentwise. -/
def smul3 (t : ℚ) (u : Vec3) : Vec3 := (t * u.1, t * u.2.1, t * u.2.2)

/-- Componentwise linear combination `x • u + y • v + z • w` of three 3D
vectors, the shape of the per-component sums in the gradient formula. -/
def lin3 (x y z : ℚ) (u v w : Vec3) : Vec3 :=
  (x * u.1 + y * v.1 + z * w.1,
   x * u.2.1 + y * v.2.1 + z * w.2.1,
   x * u.2.2 + y * v.2.2 + z * w.2.2)

/-- One loaded tetrahedral cell: the 4 vertex ids (`vertex[4]`), the two
scalar samples at each vertex (`data[k][0] = scalars1[vertex[k]]`,
`data[k][1] = scalars2[vertex[k]]`; `data[k][2]` is the constant 0), and the
3D position of each vertex (`position[4][3]`). -/
structure Cell where
  vertex : Fin 4 → ℤ
  data1 : Fin 4 → ℚ
  data2 : Fin 4 → ℚ
  position : Fin 4 → Vec3

/-- The 2D scalar pair `(data[k][0], data[k][1])` of local vertex `k`. -/
def dataOf (c : Cell) (k : Fin 4) : ℚ × ℚ := (c.data1 k, c.data2 k)

/-- Edge vector `v12 = position[1] - position[0]`. -/
def v12 (c : Cell) : Vec3 := vsub (c.position 1) (c.position 0)

/-- Edge vector `v13 = position[2] - position[0]`. -/
def v13 (c : Cell) : Vec3 := vsub (c.position 2) (c.position 0)

/-- Edge vector `v14 = position[3] - position[0]`. -/
def v14 (c : Cell) : Vec3 := vsub (c.position 3) (c.position 0)

/-- Scalar-difference vector `s12 = data[1] - data[0]` (third component is
`0 - 0 = 0`). -/
def s12 (c : Cell) : Vec3 :=
  (c.data1 1 - c.data1 0, c.data2 1 - c.data2 0, 0)

/-- Scalar-difference vector `s13 = data[2] - data[0]`. -/
def s13 (c : Cell) : Vec3 :=
  (c.data1 2 - c.data1 0, c.data2 2 - c.data2 0, 0)

/-- Scalar-difference vector `s14 = data[3] - data[0]`. -/
def s14 (c : Cell) : Vec3 :=
  (c.data1 3 - c.data1 0, c.data2 3 - c.data2 0, 0)

/-- The scalar `det` computed by the Gradient Solver for the tetrahedron
with vertex positions `p0 p1 p2 p3`:
`det = v14 . (v13 x v12)` with `v1k = pk-1 - p0`
(source lines 196-212). -/
def tetDet (p0 p1 p2 p3 : Vec3) : ℚ :=
  dotProduct (vsub p3 p0) (crossProduct (vsub p2 p0) (vsub p1 p0))

/-- The `det` of a loaded cell. -/
def detOf (c : Cell) : ℚ :=
  tetDet (c.position 0) (c.position 1) (c.position 2) (c.position 3)

/-- Modelled from the spec: the signed volume of the tetrahedron
`(p0, p1, p2, p3)` in the standard (right-handed) convention,
`det [p1 - p0; p2 - p0; p3 - p0] / 6`, i.e. one sixth of the scalar triple
product `(p1 - p0) . ((p2 - p0) x (p3 - p0))`. -/
def signedTetVolume (p0 p1 p2 p3 : Vec3) : ℚ :=
  dotProduct (vsub p1 p0) (crossProduct (vsub p2 p0) (vsub p3 p0)) / 6

/-- Gradient of the first scalar channel (`g0` in the source, lines
219-230): the zero vector when `det == 0`, otherwise
`g0[k] = (s14[0]*a[k] + s13[0]*b[k] + s12[0]*c[k]) * invDet` with
`a = v13 x v12`, `b = v12 x v14`, `c = v14 x v13`, `invDet = 1/det`. -/
def g0 (c : Cell) : Vec3 :=
  if detOf c = 0 then (0, 0, 0)
  else
    smul3 (1 / detOf c)
      (lin3 (s14 c).1 (s13 c).1 (s12 c).1
        (crossProduct (v13 c) (v12 c))
        (crossProduct (v12 c) (v14 c))
        (crossProduct (v14 c) (v13 c)))

/-- Gradient of the second scalar channel (`g1` in the source): same
formula with the second components `s1k[1]`. -/
def g1 (c : Cell) : Vec3 :=
  if detOf c = 0 then (0, 0, 0)
  else
    smul3 (1 / detOf c)
      (lin3 (s14 c).2.1 (s13 c).2.1 (s12 c).2.1
        (crossProduct (v13 c) (v12 c))
        (crossProduct (v12 c) (v14 c))
        (crossProduct (v14 c) (v13 c)))

/-- The cross product `cp = g0 x g1` of the two gradients (source line
248). -/
def cpOf (c : Cell) : Vec3 := crossProduct (g0 c) (g1 c)

/-- The squared Jacobian magnitude; the source's `volume` is
`Real.sqrt` of this quantity. -/
def volumeSq (c : Cell) : ℚ := normSq (cpOf c)

/-- The Jacobian magnitude `volume = |g0 x g1|` (source line 249). -/
noncomputable def volume (c : Cell) : ℝ := Real.sqrt ((volumeSq c : ℚ) : ℝ)

/-- Orientation determinant of the 2D points `a`, `b`, `p`: positive when
`p` lies to the left of the directed line `a -> b`. -/
def sdet (a b p : ℚ × ℚ) : ℚ :=
  (b.1 - a.1) * (p.2 - a.2) - (b.2 - a.2) * (p.1 - a.1)

/-- Modelled from the spec: `Geometry::isPointInTriangle p0 p1 p2 p` (absent
from the excerpt) decides containment of the 2D point `p` in the closed
triangle `(p0, p1, p2)`; closed containment makes the fully degenerate cell
(all four scalar pairs identical) land in the `InTriangle` path, as the spec
requires of that scenario. -/
def isPointInTriangle (p0 p1 p2 p : ℚ × ℚ) : Prop :=
  (0 ≤ sdet p0 p1 p ∧ 0 ≤ sdet p1 p2 p ∧ 0 ≤ sdet p2 p0 p)
    ∨ (sdet p0 p1 p ≤ 0 ∧ sdet p1 p2 p ≤ 0 ∧ sdet p2 p0 p ≤ 0)

instance (p0 p1 p2 p : ℚ × ℚ) : Decidable (isPointInTriangle p0 p1 p2 p) := by
  unfold isPointInTriangle
  infer_instance

/-- A permutation `(i0, i1, i2, i3)` of the 4 local vertex indices. -/
abbrev Perm4 : Type := Fin 4 × Fin 4 × Fin 4 × Fin 4

/-- The classifier of the source (lines 257-279): the four containment
tests in source order, each success recording the `index` permutation the
corresponding branch assigns; `none` means `isInTriangle` stays false and
the cell falls to the `Quad` case. -/
def classifyIndex (d : Fin 4 → ℚ × ℚ) : Option Perm4 :=
  if isPointInTriangle (d 0) (d 1) (d 2) (d 3) then some (0, 1, 2, 3)
  else if isPointInTriangle (d 0) (d 1) (d 3) (d 2) then some (0, 1, 3, 2)
  else if isPointInTriangle (d 0) (d 2) (d 3) (d 1) then some (0, 2, 3, 1)
  else if isPointInTriangle (d 1) (d 2) (d 3) (d 0) then some (1, 2, 3, 0)
  else none

/-- The three local indices other than `k`, in ascending order. -/
def othersAsc : Fin 4 → Fin 4 × Fin 4 × Fin 4 :=
  ![(1, 2, 3), (0, 2, 3), (0, 1, 3), (0, 1, 2)]

/-- Containment of the scalar pair of candidate apex `k` in the 2D triangle
of the other three local vertices (taken in ascending order). -/
def apexContained (d : Fin 4 → ℚ × ℚ) (k : Fin 4) : Prop :=
  isPointInTriangle (d (othersAsc k).1) (d (othersAsc k).2.1)
    (d (othersAsc k).2.2) (d k)

instance (d : Fin 4 → ℚ × ℚ) (k : Fin 4) : Decidable (apexContained d k) := by
  unfold apexContained
  infer_instance

/-- A classifier stated the way claim C1 words it: test vertex 0 against
the triangle of vertices 1, 2, 3 first; if that fails, vertex 1 against
0, 2, 3; then vertex 2 against 0, 1, 3; then vertex 3 against 0, 1, 2.  The
first success yields the permutation whose last entry `i3` is the contained
apex. -/
def classifyClaimOrder (d : Fin 4 → ℚ × ℚ) : Option Perm4 :=
  if apexContained d 0 then some (1, 2, 3, 0)
  else if apexContained d 1 then some (0, 2, 3, 1)
  else if apexContained d 2 then some (0, 1, 3, 2)
  else if apexContained d 3 then some (0, 1, 2, 3)
  else none

/-- The amended description of the classifier: the apex candidates are
tried in descending order 3, 2, 1, 0; the first candidate whose scalar pair
is contained in the triangle of the other three fixes the permutation
`(i0, i1, i2, i3)` with `i3` the apex and `i0 < i1 < i2` the others. -/
def classifyApexDescending (d : Fin 4 → ℚ × ℚ) : Option Perm4 :=
  if apexContained d 3 then
    some ((othersAsc 3).1, (othersAsc 3).2.1, (othersAsc 3).2.2, 3)
  else if apexContained d 2 then
    some ((othersAsc 2).1, (othersAsc 2).2.1, (othersAsc 2).2.2, 2)
  else if apexContained d 1 then
    some ((othersAsc 1).1, (othersAsc 1).2.1, (othersAsc 1).2.2, 1)
  else if apexContained d 0 then
    some ((othersAsc 0).1, (othersAsc 0).2.1, (othersAsc 0).2.2, 0)
  else none

/-- Modelled from the spec: `Geometry::computeSegmentIntersection` (absent
from the excerpt) returns the interior intersection point of the 2D
segments `a-b` and `c-d` when they cross, and nothing otherwise. -/
def computeSegmentIntersection (a b c d : ℚ × ℚ) : Option (ℚ × ℚ) :=
  let den := (b.1 - a.1) * (d.2 - c.2) - (b.2 - a.2) * (d.1 - c.1)
  if den = 0 then none
  else
    let t := ((c.1 - a.1) * (d.2 - c.2) - (c.2 - a.2) * (d.1 - c.1)) / den
    let u := ((c.1 - a.1) * (b.2 - a.2) - (c.2 - a.2) * (b.1 - a.1)) / den
    if 0 ≤ t ∧ t ≤ 1 ∧ 0 ≤ u ∧ u ≤ 1 then
      some (a.1 + t * (b.1 - a.1), a.2 + t * (b.2 - a.2))
    else none

/-- The `Quad` branch of the source (lines 363-385): the diagonal pairs
0-1 vs 2-3, then 0-2 vs 1-3, then 0-3 vs 1-2 are tested in that order;
the first hit fixes the `index` permutation and the intersection point `p`;
when none hits, `index` keeps its initial value `(0, 1, 2, 3)` and `p`
keeps its initial value `(0, 0)`. -/
def quadIndexAndPoint (d : Fin 4 → ℚ × ℚ) : Perm4 × (ℚ × ℚ) :=
  match computeSegmentIntersection (d 0) (d 1) (d 2) (d 3) with
  | some p => ((0, 1, 2, 3), p)
  | none =>
    match computeSegmentIntersection (d 0) (d 2) (d 1) (d 3) with
    | some p => ((0, 2, 1, 3), p)
    | none =>
      match computeSegmentIntersection (d 0) (d 3) (d 1) (d 2) with
      | some p => ((0, 3, 1, 2), p)
      | none => ((0, 1, 2, 3), (0, 0))

/-- The `Quad` permutation of a loaded cell. -/
def quadPerm (c : Cell) : Perm4 := (quadIndexAndPoint (dataOf c)).1

/-- The `Quad` imaginary intersection point `p` of a loaded cell. -/
def quadPt (c : Cell) : ℚ × ℚ := (quadIndexAndPoint (dataOf c)).2

/-- The triangle list the Density & Geometry Emitter produces (source lines
345-358 and 442-457): a 3-triangle fan on the apex in the `InTriangle`
case, a 4-triangle fan whose first slot holds the synthetic id `-1` in the
`Quad` case. -/
def emittedTriangles (c : Cell) : List (ℤ × ℤ × ℤ) :=
  match classifyIndex (dataOf c) with
  | some (i0, i1, i2, i3) =>
    [(c.vertex i3, c.vertex i0, c.vertex i1),
     (c.vertex i3, c.vertex i0, c.vertex i2),
     (c.vertex i3, c.vertex i1, c.vertex i2)]
  | none =>
    [(-1, c.vertex (quadPerm c).1, c.vertex (quadPerm c).2.2.1),
     (-1, c.vertex (quadPerm c).2.2.1, c.vertex (quadPerm c).2.1),
     (-1, c.vertex (quadPerm c).2.1, c.vertex (quadPerm c).2.2.2),
     (-1, c.vertex (quadPerm c).2.2.2, c.vertex (quadPerm c).1)]

/-- Modelled from the spec: `Geometry::computeTriangleArea` (absent from
the excerpt), the signed 2D area of the triangle `(a, b, c)` of scalar
pairs; the spec calls these "signed 2D triangle areas". -/
def computeTriangleArea (a b c : ℚ × ℚ) : ℚ :=
  ((b.1 - a.1) * (c.2 - a.2) - (b.2 - a.2) * (c.1 - a.1)) / 2

/-- The base-triangle area `A` of the `InTriangle` branch (source lines
291-294), or `0` for a `Quad` cell (where no such area is computed). -/
def baseArea (c : Cell) : ℚ :=
  match classifyIndex (dataOf c) with
  | some (i0, i1, i2, _) =>
    computeTriangleArea (dataOf c i0) (dataOf c i1) (dataOf c i2)
  | none => 0

/-- The squared `massDensity` of the `InTriangle` branch (source lines
289-336): barycentric weights `alpha, beta, gamma` scaled by `invA` (forced
to `0` when `A == 0`), `p0 = position[index[3]]`, `p1` the weighted
combination of the base-triangle positions, and the squared distance
`|p0 - p1|^2`. -/
def inTriMassDensitySq (c : Cell) : ℚ :=
  match classifyIndex (dataOf c) with
  | some (i0, i1, i2, i3) =>
    let A := computeTriangleArea (dataOf c i0) (dataOf c i1) (dataOf c i2)
    let invA := if A = 0 then 0 else 1 / A
    let alpha := computeTriangleArea (dataOf c i1) (dataOf c i2) (dataOf c i3) * invA
    let beta := computeTriangleArea (dataOf c i0) (dataOf c i2) (dataOf c i3) * invA
    let gamma := computeTriangleArea (dataOf c i0) (dataOf c i1) (dataOf c i3) * invA
    distanceSq (c.position i3)
      (lin3 alpha beta gamma (c.position i0) (c.position i1) (c.position i2))
  | none => 0

/-- The final `isLimit` flag: set when `volume == 0` (source lines 250-251)
or, in the `InTriangle` branch only, when the base-triangle area `A == 0`
(source lines 296-299).  `volume = Real.sqrt volumeSq` vanishes exactly
when `volumeSq` does. -/
def isLimitOf (c : Cell) : Prop :=
  volumeSq c = 0
    ∨ ((classifyIndex (dataOf c)).isSome = true ∧ baseArea c = 0)

instance (c : Cell) : Decidable (isLimitOf c) := by
  unfold isLimitOf
  infer_instance

/-- Squared 2D Euclidean distance between scalar pairs (the source calls
`Geometry::distance` on `data` triples whose third components are 0). -/
def dist2Sq (a b : ℚ × ℚ) : ℚ := (a.1 - b.1) * (a.1 - b.1) + (a.2 - b.2) * (a.2 - b.2)

/-- The coordinates of a 3D vector as a function of the axis index. -/
def coord (u : Vec3) : Fin 3 → ℚ
  | 0 => u.1
  | 1 => u.2.1
  | 2 => u.2.2

/-- The `Quad` interpolation value `r0 = |data[index[0]] - p| /
|data[index[0]] - data[index[1]]|` (source lines 389-391). -/
noncomputable def r0Of (c : Cell) : ℝ :=
  Real.sqrt ((dist2Sq (dataOf c (quadPerm c).1) (quadPt c) : ℚ) : ℝ)
    / Real.sqrt ((dist2Sq (dataOf c (quadPerm c).1) (dataOf c (quadPerm c).2.1) : ℚ) : ℝ)

/-- The `Quad` interpolation value `r1 = |data[index[2]] - p| /
|data[index[2]] - data[index[3]]|` (source lines 404-406). -/
noncomputable def r1Of (c : Cell) : ℝ :=
  Real.sqrt ((dist2Sq (dataOf c (quadPerm c).2.2.1) (quadPt c) : ℚ) : ℝ)
    / Real.sqrt ((dist2Sq (dataOf c (quadPerm c).2.2.1) (dataOf c (quadPerm c).2.2.2) : ℚ) : ℝ)

/-- The lifted 3D point `p0 = position[index[0]] + r0 * (position[index[1]]
- position[index[0]])` of the `Quad` branch (source lines 416-417). -/
noncomputable def quadP0 (c : Cell) (k : Fin 3) : ℝ :=
  (coord (c.position (quadPerm c).1) k : ℝ)
    + r0Of c * ((coord (c.position (quadPerm c).2.1) k : ℝ)
      - (coord (c.position (quadPerm c).1) k : ℝ))

/-- The lifted 3D point `p1 = position[index[2]] + r1 * (position[index[3]]
- position[index[2]])` of the `Quad` branch (source lines 419-420). -/
noncomputable def quadP1 (c : Cell) (k : Fin 3) : ℝ :=
  (coord (c.position (quadPerm c).2.2.1) k : ℝ)
    + r1Of c * ((coord (c.position (quadPerm c).2.2.2) k : ℝ)
      - (coord (c.position (quadPerm c).2.2.1) k : ℝ))

/-- The `Quad` branch `massDensity = |p0 - p1|` (source line 427). -/
noncomputable def quadMassDensity (c : Cell) : ℝ :=
  Real.sqrt ((quadP0 c 0 - quadP1 c 0) ^ 2 + (quadP0 c 1 - quadP1 c 1) ^ 2
    + (quadP0 c 2 - quadP1 c 2) ^ 2)

/-- The `massDensity` of a cell, by classification case. -/
noncomputable def massDensityOf (c : Cell) : ℝ :=
  match classifyIndex (dataOf c) with
  | some _ => Real.sqrt ((inTriMassDensitySq c : ℚ) : ℝ)
  | none => quadMassDensity c

/-- The per-cell density record: either the designated "infinite" sentinel
(`std::numeric_limits<double>::max()` in the source; the spec directs the
sentinel to be represented as a tagged out-of-band value) or a finite
value. -/
inductive DensityVal where
  | infinite : DensityVal
  | finite : ℝ → DensityVal

/-- The density emitted for a cell (source lines 338-341 and 430-433):
the infinite sentinel when `isLimit`, else `massDensity / volume`. -/
noncomputable def densityOf (c : Cell) : DensityVal :=
  if isLimitOf c then DensityVal.infinite
  else DensityVal.finite (massDensityOf c / volume c)

/-- The position recorded for the synthetic vertex: left at its zero
initialisation for an `InTriangle` cell, `(p[0], p[1], 0)` for a `Quad`
cell (source lines 437-439). -/
def imaginaryPositionOf (c : Cell) : Vec3 :=
  match classifyIndex (dataOf c) with
  | some _ => (0, 0, 0)
  | none => ((quadPt c).1, (quadPt c).2, 0)

/-- The mutable configuration of `ttk::ContinuousScatterPlot` relevant to
the per-cell computation: the dummy-value mode flag `withDummyValue_` and
the dummy sentinel `dummyValue_`. -/
structure CSPState where
  withDummyValue_ : Bool
  dummyValue_ : ℚ

/-- The `setDummyValue` member (source lines 50-56): stores the flag and
value only when the argument `withDummyValue` is true; always returns 0. -/
def setDummyValue (withDummyValue : Bool) (dummyValue : ℚ) (st : CSPState) :
    CSPState × ℤ :=
  if withDummyValue then
    ({ withDummyValue_ := true, dummyValue_ := dummyValue }, 0)
  else (st, 0)

/-- The dummy-exclusion test of the Cell Loader (source lines 162-166):
in dummy mode, a cell any of whose vertices carries the dummy sentinel in
either scalar channel is skipped. -/
def isDummyCell (st : CSPState) (c : Cell) : Prop :=
  st.withDummyValue_ = true
    ∧ ∃ k : Fin 4, c.data1 k = st.dummyValue_ ∨ c.data2 k = st.dummyValue_

instance (st : CSPState) (c : Cell) : Decidable (isDummyCell st c) := by
  unfold isDummyCell
  infer_instance

/-- Everything a processed cell hands to the (out-of-scope) rasterizer:
its density, its triangle list, and the synthetic-vertex position. -/
structure CellOutput where
  density : DensityVal
  triangles : List (ℤ × ℤ × ℤ)
  imaginaryPosition : Vec3

/-- One iteration of the parallel loop (source lines 142-458): a dummy
cell produces nothing at all, any other cell produces its output record. -/
noncomputable def processCell (st : CSPState) (c : Cell) : Option CellOutput :=
  if isDummyCell st c then none
  else
    some { density := densityOf c
           triangles := emittedTriangles c
           imaginaryPosition := imaginaryPositionOf c }

/-- The `execute` member (source lines 97-471).  The four pointer
preconditions are modelled by presence flags, the triangulation's cell list
by `cells` (so `getNumberOfCells() <= 0` is `cells.length = 0`) and
`getCellVertexNumber(0)` by `firstCellVertexNumber`.  Failures abort with
the source's distinct negative codes before any cell is processed; success
processes every cell and returns normally (status 0 is modelled by
`Except.ok`). -/
noncomputable def execute (scalars1Present scalars2Present triangulationPresent
    densityPresent : Bool) (firstCellVertexNumber : ℤ) (st : CSPState)
    (cells : List Cell) : Except ℤ (List (Option CellOutput)) :=
  if scalars1Present = false then Except.error (-1)
  else if scalars2Present = false then Except.error (-2)
  else if triangulationPresent = false then Except.error (-3)
  else if densityPresent = false then Except.error (-4)
  else if cells.length = 0 then Except.error (-5)
  else if firstCellVertexNumber ≠ 4 then Except.error (-6)
  else Except.ok (cells.map (processCell st))

/-- Claim C8: in dummy mode, a cell one of whose vertices carries the dummy
sentinel in either scalar channel is skipped entirely: the loop iteration
produces no output record at all (no gradients, no triangles, no density,
no side effects). -/
theorem C8_dummy_skip (st : CSPState) (c : Cell)
    (hmode : st.withDummyValue_ = true)
    (hhit : ∃ k : Fin 4, c.data1 k = st.dummyValue_ ∨ c.data2 k = st.dummyValue_) :
    processCell st c = none := by
  have hd : isDummyCell st c := ⟨hmode, hhit⟩
  simp [processCell, hd]

/-- A configuration with dummy mode enabled and dummy sentinel `42`. -/
def stC8w : CSPState where
  withDummyValue_ := true
  dummyValue_ := 42

/-- A cell whose second vertex carries the dummy sentinel `42` in its first
scalar channel. -/
def cellC8w : Cell where
  vertex := ![0, 1, 2, 3]
  data1 := ![1, 42, 3, 4]
  data2 := ![5, 6, 7, 8]
  position := ![((0 : ℚ), (0 : ℚ), (0 : ℚ)), (1, 0, 0), (0, 1, 0), (0, 0, 1)]

/-- Witness for claim C8 at the concrete configuration `stC8w` and cell
`cellC8w`. -/
theorem C8_dummy_witness :
    stC8w.withDummyValue_ = true ∧
    (∃ k : Fin 4, cellC8w.data1 k = stC8w.dummyValue_ ∨
      cellC8w.data2 k = stC8w.dummyValue_) ∧
    processCell stC8w cellC8w = none := by
  have hmode : stC8w.withDummyValue_ = true := rfl
  have hhit : ∃ k : Fin 4, cellC8w.data1 k = stC8w.dummyValue_ ∨
      cellC8w.data2 k = stC8w.dummyValue_ :=
    ⟨1, Or.inl (by norm_num [cellC8w, stC8w])⟩
  exact ⟨hmode, hhit, C8_dummy_skip stC8w cellC8w hmode hhit⟩

/-- Claim C9: each precondition failure of `execute` — absent first scalar
array, absent second scalar array, absent triangulation, absent output
density buffer, zero cells, a first cell that is not a tetrahedron — is
detected before the parallel loop and aborts the whole run with its own
negative status code and no per-cell processing; when every precondition
holds, every cell is processed and the run completes normally (status 0).
The six codes are pairwise distinct and all negative. -/
theorem C9_precondition_codes (s1 s2 tri dens : Bool) (fvn : ℤ) (st : CSPState)
    (cells : List Cell) :
    (s1 = false →
      execute s1 s2 tri dens fvn st cells = Except.error (-1)) ∧
    (s1 = true → s2 = false →
      execute s1 s2 tri dens fvn st cells = Except.error (-2)) ∧
    (s1 = true → s2 = true → tri = false →
      execute s1 s2 tri dens fvn st cells = Except.error (-3)) ∧
    (s1 = true → s2 = true → tri = true → dens = false →
      execute s1 s2 tri dens fvn st cells = Except.error (-4)) ∧
    (s1 = true → s2 = true → tri = true → dens = true → cells = [] →
      execute s1 s2 tri dens fvn st cells = Except.error (-5)) ∧
    (s1 = true → s2 = true → tri = true → dens = true → cells ≠ [] →
      fvn ≠ 4 →
      execute s1 s2 tri dens fvn st cells = Except.error (-6)) ∧
    (s1 = true → s2 = true → tri = true → dens = true → cells ≠ [] →
      fvn = 4 →
      execute s1 s2 tri dens fvn st cells =
        Except.ok (cells.map (processCell st))) ∧
    ([(-1 : ℤ), -2, -3, -4, -5, -6].Pairwise fun a b => a ≠ b) ∧
    (∀ x ∈ [(-1 : ℤ), -2, -3, -4, -5, -6], x < 0) := by
  refine ⟨?_, ?_, ?_, ?_, ?_, ?_, ?_, by decide, by decide⟩
  · intro h1
    subst h1
    simp [execute]
  · intro h1 h2
    subst h1
    subst h2
    simp [execute]
  · intro h1 h2 h3
    subst h1
    subst h2
    subst h3
    simp [execute]
  · intro h1 h2 h3 h4
    subst h1
    subst h2
    subst h3
    subst h4
    simp [execute]
  · intro h1 h2 h3 h4 h5
    subst h1
    subst h2
    subst h3
    subst h4
    subst h5
    simp [execute]
  · intro h1 h2 h3 h4 h5 h6
    subst h1
    subst h2
    subst h3
    subst h4
    simp [execute, List.length_eq_zero, h5, h6]
  · intro h1 h2 h3 h4 h5 h6
    subst h1
    subst h2
    subst h3
    subst h4
    subst h6
    simp [execute, List.length_eq_zero, h5]

/-- A configuration with dummy mode disabled, for C9's witness. -/
def stC9w : CSPState where
  withDummyValue_ := false
  dummyValue_ := 0

/-- An arbitrary well-formed cell, for C9's witness. -/
def cellC9w : Cell where
  vertex := ![0, 1, 2, 3]
  data1 := ![0, 1, 0, 0]
  data2 := ![0, 0, 1, 0]
  position := ![((0 : ℚ), (0 : ℚ), (0 : ℚ)), (1, 0, 0), (0, 1, 0), (0, 0, 1)]

/-- Witness for claim C9: with every precondition satisfied on a concrete
one-cell input, `execute` processes the cell list and completes normally. -/
theorem C9_precondition_witness :
    execute true true true true 4 stC9w [cellC9w] =
      Except.ok ([cellC9w].map (processCell stC9w)) :=
  (C9_precondition_codes true true true true 4 stC9w
      [cellC9w]).2.2.2.2.2.2.1 rfl rfl rfl rfl (List.cons_ne_nil _ _) rfl

/-- Claim C10: calling `setDummyValue` with `withDummyValue = false` leaves
the stored flag and dummy value untouched and returns 0; across all calls
the stored flag can only grow (`old || arg`), so the dummy mode can be
enabled through this interface but never subsequently disabled. -/
theorem C10_setDummyValue_frame (st : CSPState) (v : ℚ) (b : Bool) :
    setDummyValue false v st = (st, 0) ∧
    (setDummyValue b v st).1.withDummyValue_ = (st.withDummyValue_ || b) ∧
    (setDummyValue b v st).2 = 0 := by
  refine ⟨by simp [setDummyValue], ?_, ?_⟩ <;> cases b <;> simp [setDummyValue]

/-- Cramer identity behind the gradient formula: when the triple product
`w . (v x u)` is non-zero, the vector
`(1 / (w . (v x u))) * (z * (v x u) + y * (u x w) + x * (w x v))`
has dot products `x`, `y`, `z` with `u`, `v`, `w` respectively. -/
lemma cramer_solves (u v w : Vec3) (x y z : ℚ)
    (h : dotProduct w (crossProduct v u) ≠ 0) :
    dotProduct (smul3 (1 / dotProduct w (crossProduct v u))
      (lin3 z y x (crossProduct v u) (crossProduct u w) (crossProduct w v))) u = x ∧
    dotProduct (smul3 (1 / dotProduct w (crossProduct v u))
      (lin3 z y x (crossProduct v u) (crossProduct u w) (crossProduct w v))) v = y ∧
    dotProduct (smul3 (1 / dotProduct w (crossProduct v u))
      (lin3 z y x (crossProduct v u) (crossProduct u w) (crossProduct w v))) w = z := by
  obtain ⟨u1, u2, u3⟩ := u
  obtain ⟨v1, v2, v3⟩ := v
  obtain ⟨w1, w2, w3⟩ := w
  simp only [dotProduct, crossProduct, smul3, lin3] at h ⊢
  refine ⟨?_, ?_, ?_⟩ <;> field_simp <;> ring

/-- Claim C3, counterexample: on the unit tetrahedron
`(0,0,0), (1,0,0), (0,1,0), (0,0,1)` the code's `det` is `-1` while six
times the (standard, right-handed) signed tetrahedron volume is `1`, so
`det` is not `6 *` the signed volume. -/
theorem C3_det_counterexample :
    tetDet (0, 0, 0) (1, 0, 0) (0, 1, 0) (0, 0, 1) = -1 ∧
    6 * signedTetVolume (0, 0, 0) (1, 0, 0) (0, 1, 0) (0, 0, 1) = 1 ∧
    tetDet (0, 0, 0) (1, 0, 0) (0, 1, 0) (0, 0, 1)
      ≠ 6 * signedTetVolume (0, 0, 0) (1, 0, 0) (0, 1, 0) (0, 0, 1) := by
  refine ⟨?_, ?_, ?_⟩ <;>
    norm_num [tetDet, signedTetVolume, dotProduct, crossProduct, vsub]

/-- Claim C3, amended: the scalar `det = v14 . (v13 x v12)` computed by
the Gradient Solver equals minus six times the signed volume of the
tetrahedron `position[0..3]` (standard right-handed convention); in
magnitude it is six times the tetrahedron volume, but its sign is
opposite. -/
theorem C3_det_amended (p0 p1 p2 p3 : Vec3) :
    tetDet p0 p1 p2 p3 = -(6 * signedTetVolume p0 p1 p2 p3) := by
  obtain ⟨a1, a2, a3⟩ := p0
  obtain ⟨b1, b2, b3⟩ := p1
  obtain ⟨c1, c2, c3⟩ := p2
  obtain ⟨d1, d2, d3⟩ := p3
  simp only [tetDet, signedTetVolume, dotProduct, crossProduct, vsub]
  ring

/-- Claim C4: whenever `det ≠ 0`, the gradients `g0`, `g1` produced by the
closed-form Cramer formula solve the 3x3 system exactly: the dot product of
`g0` with each edge vector `v12, v13, v14` is the corresponding `value1`
difference, and likewise `g1` reproduces the `value2` differences. -/
theorem C4_gradient_solves (c : Cell) (h : detOf c ≠ 0) :
    dotProduct (g0 c) (v12 c) = (s12 c).1 ∧
    dotProduct (g0 c) (v13 c) = (s13 c).1 ∧
    dotProduct (g0 c) (v14 c) = (s14 c).1 ∧
    dotProduct (g1 c) (v12 c) = (s12 c).2.1 ∧
    dotProduct (g1 c) (v13 c) = (s13 c).2.1 ∧
    dotProduct (g1 c) (v14 c) = (s14 c).2.1 := by
  have h' : dotProduct (v14 c) (crossProduct (v13 c) (v12 c)) ≠ 0 := h
  have e0 := cramer_solves (v12 c) (v13 c) (v14 c) (s12 c).1 (s13 c).1 (s14 c).1 h'
  have e1 := cramer_solves (v12 c) (v13 c) (v14 c)
    (s12 c).2.1 (s13 c).2.1 (s14 c).2.1 h'
  have hg0 : g0 c = smul3 (1 / dotProduct (v14 c) (crossProduct (v13 c) (v12 c)))
      (lin3 (s14 c).1 (s13 c).1 (s12 c).1 (crossProduct (v13 c) (v12 c))
        (crossProduct (v12 c) (v14 c)) (crossProduct (v14 c) (v13 c))) := by
    unfold g0
    rw [if_neg h]
    rfl
  have hg1 : g1 c = smul3 (1 / dotProduct (v14 c) (crossProduct (v13 c) (v12 c)))
      (lin3 (s14 c).2.1 (s13 c).2.1 (s12 c).2.1 (crossProduct (v13 c) (v12 c))
        (crossProduct (v12 c) (v14 c)) (crossProduct (v14 c) (v13 c))) := by
    unfold g1
    rw [if_neg h]
    rfl
  rw [hg0, hg1]
  exact ⟨e0.1, e0.2.1, e0.2.2, e1.1, e1.2.1, e1.2.2⟩

/-- The unit tetrahedron with scalar pairs `(0,0), (1,0), (0,1), (0,0)`,
the spec's end-to-end scenario, used as C4's witness cell. -/
def cellC4w : Cell where
  vertex := ![0, 1, 2, 3]
  data1 := ![0, 1, 0, 0]
  data2 := ![0, 0, 1, 0]
  position := ![((0 : ℚ), (0 : ℚ), (0 : ℚ)), (1, 0, 0), (0, 1, 0), (0, 0, 1)]

/-- Witness for claim C4 at the concrete cell `cellC4w`, whose `det` is
`-1`. -/
theorem C4_gradient_witness :
    detOf cellC4w ≠ 0 ∧
    (dotProduct (g0 cellC4w) (v12 cellC4w) = (s12 cellC4w).1 ∧
     dotProduct (g0 cellC4w) (v13 cellC4w) = (s13 cellC4w).1 ∧
     dotProduct (g0 cellC4w) (v14 cellC4w) = (s14 cellC4w).1 ∧
     dotProduct (g1 cellC4w) (v12 cellC4w) = (s12 cellC4w).2.1 ∧
     dotProduct (g1 cellC4w) (v13 cellC4w) = (s13 cellC4w).2.1 ∧
     dotProduct (g1 cellC4w) (v14 cellC4w) = (s14 cellC4w).2.1) :=
  ⟨by norm_num [detOf, tetDet, dotProduct, crossProduct, vsub, cellC4w],
   C4_gradient_solves cellC4w
     (by norm_num [detOf, tetDet, dotProduct, crossProduct, vsub, cellC4w])⟩

/-- Claim C6: when `det == 0` exactly, both gradients are set to the exact
zero vector, the Jacobian magnitude `volume` is `0`, and `isLimit` is
true. -/
theorem C6_degenerate_det (c : Cell) (h : detOf c = 0) :
    g0 c = (0, 0, 0) ∧ g1 c = (0, 0, 0) ∧ volumeSq c = 0 ∧ volume c = 0 ∧
    isLimitOf c := by
  have hg0 : g0 c = (0, 0, 0) := by
    unfold g0
    rw [if_pos h]
  have hg1 : g1 c = (0, 0, 0) := by
    unfold g1
    rw [if_pos h]
  have hv : volumeSq c = 0 := by
    unfold volumeSq cpOf
    rw [hg0, hg1]
    norm_num [crossProduct, normSq, dotProduct]
  refine ⟨hg0, hg1, hv, ?_, Or.inl hv⟩
  unfold volume
  rw [hv]
  simp

/-- A perfectly flat (coplanar) tetrahedron: all four positions lie in the
plane `z = 0`; used as C6's witness cell. -/
def cellC6w : Cell where
  vertex := ![0, 1, 2, 3]
  data1 := ![1, 2, 3, 4]
  data2 := ![4, 3, 2, 1]
  position := ![((0 : ℚ), (0 : ℚ), (0 : ℚ)), (1, 0, 0), (0, 1, 0), (1, 1, 0)]

/-- A fully degenerate scalar configuration: all four scalar pairs are the
same point `(0, 0)` of the scatterplot domain, so every containment test
of the classifier succeeds and the order of the tests becomes
observable. -/
def dataC1cex : Fin 4 → ℚ × ℚ := fun _ => (0, 0)

/-- Claim C1, counterexample: on a cell whose four scalar pairs coincide,
the classifier of the source selects the permutation `(0, 1, 2, 3)` (apex
vertex 3, from its first test), while the order claimed — vertex 0 against
triangle 1,2,3 first — would select `(1, 2, 3, 0)` (apex vertex 0); the
two orders disagree, so the claimed order is not the code's. -/
theorem C1_order_counterexample :
    classifyIndex dataC1cex = some (0, 1, 2, 3) ∧
    classifyClaimOrder dataC1cex = some (1, 2, 3, 0) ∧
    classifyIndex dataC1cex ≠ classifyClaimOrder dataC1cex := by
  have h1 : classifyIndex dataC1cex = some (0, 1, 2, 3) := by
    norm_num [classifyIndex, isPointInTriangle, sdet, dataC1cex]
  have h2 : classifyClaimOrder dataC1cex = some (1, 2, 3, 0) := by
    norm_num [classifyClaimOrder, apexContained, othersAsc, isPointInTriangle,
      sdet, dataC1cex]
  refine ⟨h1, h2, ?_⟩
  rw [h1, h2]
  decide

/-- Claim C1, amended: the classifier tests the apex candidates in
descending order — first whether vertex 3's scalar pair lies inside the 2D
triangle of vertices 0,1,2; if not, vertex 2 inside 0,1,3; if not, vertex 1
inside 0,2,3; if not, vertex 0 inside 1,2,3 — and the first successful test
fixes the permutation `(i0, i1, i2, i3)` with `i3` the contained apex and
the other three indices in ascending order. -/
theorem C1_order_amended (d : Fin 4 → ℚ × ℚ) :
    classifyIndex d = classifyApexDescending d := rfl

/-- Claim C7: for every cell, exactly one of the `InTriangle` / `Quad`
cases applies, the emitted triangle count is exactly 3 in the `InTriangle`
case and exactly 4 in the `Quad` case, and every `Quad` triangle carries
the synthetic sentinel id `-1` in its first vertex slot. -/
theorem C7_triangle_emission (c : Cell) :
    ((classifyIndex (dataOf c)).isSome = true ∧ (emittedTriangles c).length = 3) ∨
    (classifyIndex (dataOf c) = none ∧ (emittedTriangles c).length = 4 ∧
      ∀ t ∈ emittedTriangles c, t.1 = -1) := by
  rcases hcl : classifyIndex (dataOf c) with _ | p
  · right
    refine ⟨rfl, by simp [emittedTriangles, hcl], ?_⟩
    intro t ht
    simp only [emittedTriangles, hcl, List.mem_cons, List.not_mem_nil,
      or_false] at ht
    rcases ht with h | h | h | h <;> subst h <;> rfl
  · left
    obtain ⟨i0, i1, i2, i3⟩ := p
    exact ⟨by simp [hcl], by simp [emittedTriangles, hcl]⟩

/-- Both branch shapes of `massDensityOf` are square roots, so the mass
density is never negative. -/
lemma massDensityOf_nonneg (c : Cell) : 0 ≤ massDensityOf c := by
  unfold massDensityOf
  split
  · exact Real.sqrt_nonneg _
  · unfold quadMassDensity
    exact Real.sqrt_nonneg _

/-- Claim C2, amended: the emitted density is non-negative whenever
`volume > 0` (the infinite sentinel standing above every finite value), and
the density equals the infinite sentinel if and only if `isLimit` holds —
regardless of whether the mass-density numerator vanishes. -/
theorem C2_density_amended (c : Cell) :
    (0 < volume c →
      densityOf c = DensityVal.infinite ∨
        ∃ dv : ℝ, densityOf c = DensityVal.finite dv ∧ 0 ≤ dv) ∧
    (densityOf c = DensityVal.infinite ↔ isLimitOf c) := by
  constructor
  · intro hv
    by_cases hl : isLimitOf c
    · left
      simp [densityOf, hl]
    · right
      refine ⟨massDensityOf c / volume c, by simp [densityOf, hl], ?_⟩
      exact div_nonneg (massDensityOf_nonneg c) (le_of_lt hv)
  · constructor
    · intro hd
      by_contra hl
      simp [densityOf, hl] at hd
    · intro hl
      simp [densityOf, hl]

/-- The unit tetrahedron with scalar pairs `(0,0), (1,0), (0,1), (0,0)`,
whose Jacobian magnitude is `1`; C2's witness cell. -/
def cellC2w : Cell where
  vertex := ![0, 1, 2, 3]
  data1 := ![0, 1, 0, 0]
  data2 := ![0, 0, 1, 0]
  position := ![((0 : ℚ), (0 : ℚ), (0 : ℚ)), (1, 0, 0), (0, 1, 0), (0, 0, 1)]

/-- Witness for claim C2 at the concrete cell `cellC2w`, whose `volume` is
positive. -/
theorem C2_density_witness :
    0 < volume cellC2w ∧
    (densityOf cellC2w = DensityVal.infinite ∨
      ∃ dv : ℝ, densityOf cellC2w = DensityVal.finite dv ∧ 0 ≤ dv) := by
  have hvol : volumeSq cellC2w = 1 := by
    norm_num [volumeSq, cpOf, g0, g1, detOf, tetDet, normSq, dotProduct,
      crossProduct, vsub, smul3, lin3, s12, s13, s14, v12, v13, v14, cellC2w]
  have hv : 0 < volume cellC2w := by
    unfold volume
    rw [hvol]
    norm_num
  exact ⟨hv, (C2_density_amended cellC2w).1 hv⟩

/-- A cell whose four vertices carry the identical scalar pair and the
identical position: `isLimit` holds and the mass-density numerator is
exactly zero. -/
def cellC2cex : Cell where
  vertex := ![0, 1, 2, 3]
  data1 := ![0, 0, 0, 0]
  data2 := ![0, 0, 0, 0]
  position := ![((0 : ℚ), (0 : ℚ), (0 : ℚ)), (0, 0, 0), (0, 0, 0), (0, 0, 0)]

set_option maxHeartbeats 1000000 in
/-- Claim C2, counterexample: on `cellC2cex` the density is the infinite
sentinel although the mass-density numerator is zero, so "density is the
sentinel iff `isLimit` holds and the mass numerator is non-zero" fails:
the code emits the sentinel whenever `isLimit`, whatever the numerator. -/
theorem C2_density_counterexample :
    ¬((densityOf cellC2cex = DensityVal.infinite) ↔
      (isLimitOf cellC2cex ∧ massDensityOf cellC2cex ≠ 0)) := by
  have hcl : classifyIndex (dataOf cellC2cex) = some (0, 1, 2, 3) := by
    norm_num [classifyIndex, isPointInTriangle, sdet, dataOf, cellC2cex]
  have hA : baseArea cellC2cex = 0 := by
    simp only [baseArea, hcl]
    norm_num [computeTriangleArea, dataOf, cellC2cex]
  have hlim : isLimitOf cellC2cex := Or.inr ⟨by rw [hcl]; rfl, hA⟩
  have hsq : inTriMassDensitySq cellC2cex = 0 := by
    simp only [inTriMassDensitySq, hcl]
    norm_num [computeTriangleArea, dataOf, cellC2cex, distanceSq, normSq,
      dotProduct, vsub, lin3]
  have hmd : massDensityOf cellC2cex = 0 := by
    simp only [massDensityOf, hcl]
    rw [hsq]
    simp
  have hinf : densityOf cellC2cex = DensityVal.infinite := by
    simp [densityOf, hlim]
  intro hiff
  exact absurd hmd (hiff.mp hinf).2

/-- Containment of a point in the triangle whose three corners coincide
with the point itself: all orientation determinants vanish, so the closed
containment holds. -/
lemma isPointInTriangle_self (a : ℚ × ℚ) : isPointInTriangle a a a a := by
  left
  norm_num [sdet, sub_self]

/-- Claim C5: a cell whose four vertices carry the identical scalar pair is
classified by the first `InTriangle` test, its base-triangle area `A` is
`0`, and its density is the infinite sentinel fixed by the `isLimit`
branch (the exact-arithmetic value, in particular, is never an undefined
quotient: the `invA` guard forces the weights to `0`). -/
theorem C5_identical_pairs (c : Cell) (h : ∀ k : Fin 4, dataOf c k = dataOf c 0) :
    classifyIndex (dataOf c) = some (0, 1, 2, 3) ∧ baseArea c = 0 ∧
    densityOf c = DensityVal.infinite := by
  have h1 := h 1
  have h2 := h 2
  have h3 := h 3
  have hin : isPointInTriangle (dataOf c 0) (dataOf c 1) (dataOf c 2)
      (dataOf c 3) := by
    rw [h1, h2, h3]
    exact isPointInTriangle_self _
  have hcl : classifyIndex (dataOf c) = some (0, 1, 2, 3) := by
    unfold classifyIndex
    rw [if_pos hin]
  have hA : baseArea c = 0 := by
    simp only [baseArea, hcl]
    rw [h1, h2]
    norm_num [computeTriangleArea, sub_self]
  have hlim : isLimitOf c := Or.inr ⟨by rw [hcl]; rfl, hA⟩
  exact ⟨hcl, hA, by simp [densityOf, hlim]⟩

/-- A non-degenerate tetrahedron whose four vertices all carry the scalar
pair `(5, 7)`; C5's witness cell. -/
def cellC5w : Cell where
  vertex := ![0, 1, 2, 3]
  data1 := ![5, 5, 5, 5]
  data2 := ![7, 7, 7, 7]
  position := ![((0 : ℚ), (0 : ℚ), (0 : ℚ)), (1, 0, 0), (0, 1, 0), (0, 0, 1)]

/-- Witness for claim C5 at the concrete cell `cellC5w`. -/
theorem C5_identical_witness :
    (∀ k : Fin 4, dataOf cellC5w k = dataOf cellC5w 0) ∧
    (classifyIndex (dataOf cellC5w) = some (0, 1, 2, 3) ∧
     baseArea cellC5w = 0 ∧ densityOf cellC5w = DensityVal.infinite) := by
  have hyp : ∀ k : Fin 4, dataOf cellC5w k = dataOf cellC5w 0 := by
    intro k
    fin_cases k <;> norm_num [dataOf, cellC5w]
  exact ⟨hyp, C5_identical_pairs cellC5w hyp⟩

/-- Witness for claim C6 at the concrete coplanar cell `cellC6w`. -/
theorem C6_degenerate_witness :
    detOf cellC6w = 0 ∧
    (g0 cellC6w = (0, 0, 0) ∧ g1 cellC6w = (0, 0, 0) ∧ volumeSq cellC6w = 0 ∧
     volume cellC6w = 0 ∧ isLimitOf cellC6w) :=
  ⟨by norm_num [detOf, tetDet, dotProduct, crossProduct, vsub, cellC6w],
   C6_degenerate_det cellC6w
     (by norm_num [detOf, tetDet, dotProduct, crossProduct, vsub, cellC6w])⟩

end CSP
